import Mathlib

/-!
Shallow embedding of the session registry, event framer, transport adapter
and request router of the MCP edge function (src/src/function.ts).

JavaScript values that flow through the router are modelled by an inductive
JSON type; JS truthiness, property access and strict equality against a
string are modelled explicitly.  The global mutable state (the connection
list, the broadcast queue and the transport connected flag) becomes an
explicit state record threaded through every handler.  Date.now() becomes a
clock argument.  The opaque protocol handler (the MCP server reached through
transport.handleIncomingMessage) becomes a handler parameter that may mutate
the state and may fail with an error message, mirroring a thrown exception.
-/

/-- JSON-like values (the `any`-typed payloads of the source).  An absent or
`undefined` JS value is modelled as `null`: the two are indistinguishable to
every truthiness test the source performs. -/
inductive Json where
  | null : Json
  | bool : Bool → Json
  | num : Int → Json
  | str : String → Json
  | arr : List Json → Json
  | obj : List (String × Json) → Json

/-- JS truthiness of a modelled value. -/
def jsTruthy : Json → Bool
  | .null => false
  | .bool b => b
  | .num n => n != 0
  | .str s => s != ""
  | .arr _ => true
  | .obj _ => true

/-- JS property access `v.k` on a non-nullish receiver: field lookup on an
object, `undefined` (modelled `null`) on other non-nullish values.  A
nullish receiver throws a TypeError instead, which the callers model
explicitly: handleMessage branches on `jsIsNullish` before reading, and
getConnectionId guards its read behind a truthiness test of the body. -/
def jsGetField (v : Json) (k : String) : Json :=
  match v with
  | .obj fields =>
    match fields.find? (fun p => p.1 = k) with
    | some p => p.2
    | none => .null
  | _ => .null

/-- Whether a value is the nullish receiver (JS null or undefined, both
modelled by `Json.null`) on which a property read throws a TypeError
instead of yielding undefined. -/
def jsIsNullish : Json → Bool
  | .null => true
  | _ => false

/-- The TypeError message raised by a property read on a nullish receiver
at the normalization line of handleMessage (`body.type`).  The model
conflates JS null and undefined into `Json.null`, so the null wording of
the V8 message stands for both receivers. -/
def nullBodyTypeError : String :=
  "Cannot read properties of null (reading 'type')"

/-- JS strict equality `s === v` between a string and a modelled value. -/
def jsStrictEqStr (s : String) (v : Json) : Bool :=
  match v with
  | .str t => s = t
  | _ => false

/-- Two lowercase hex digits of a byte, as used by JSON.stringify for
control characters. -/
def hexDigit (n : Nat) : Char :=
  if n < 10 then Char.ofNat (48 + n) else Char.ofNat (87 + n)

/-- JSON string escaping as performed by JSON.stringify. -/
def jsonEscapeChar (c : Char) : String :=
  if c = '"' then "\\\""
  else if c = '\\' then "\\\\"
  else if c = '\n' then "\\n"
  else if c = '\t' then "\\t"
  else if c = '\r' then "\\r"
  else if c = Char.ofNat 8 then "\\b"
  else if c = Char.ofNat 12 then "\\f"
  else if c.toNat < 32 then
    "\\u00" ++ String.mk [hexDigit (c.toNat / 16), hexDigit (c.toNat % 16)]
  else String.singleton c

def jsonEscape (s : String) : String :=
  String.join (s.data.map jsonEscapeChar)

mutual
/-- JSON.stringify on modelled values (object keys keep insertion order,
exactly as V8 serializes the object literals of the source). -/
def Json.stringify : Json → String
  | .null => "null"
  | .bool true => "true"
  | .bool false => "false"
  | .num n => toString n
  | .str s => "\"" ++ jsonEscape s ++ "\""
  | .arr xs => "[" ++ Json.stringifyList xs ++ "]"
  | .obj fields => "\x7b" ++ Json.stringifyFields fields ++ "\x7d"

def Json.stringifyList : List Json → String
  | [] => ""
  | [x] => Json.stringify x
  | x :: y :: rest => Json.stringify x ++ "," ++ Json.stringifyList (y :: rest)

def Json.stringifyFields : List (String × Json) → String
  | [] => ""
  | [(k, v)] => "\"" ++ jsonEscape k ++ "\":" ++ Json.stringify v
  | (k, v) :: p :: rest =>
    "\"" ++ jsonEscape k ++ "\":" ++ Json.stringify v ++ "," ++
      Json.stringifyFields (p :: rest)
end

/-! ## String scanning helpers (substring test, the connectionId regex,
and the URL search-parameter fallback) -/

/-- Whether `pre` is a prefix of `l` (character lists). -/
def listStartsWith : List Char → List Char → Bool
  | [], _ => true
  | _ :: _, [] => false
  | a :: as, b :: bs => a = b && listStartsWith as bs

/-- Whether `needle` occurs as a contiguous substring of `hay`
(String.prototype.includes). -/
def listContainsSub (needle : List Char) : List Char → Bool
  | [] => listStartsWith needle []
  | c :: rest => listStartsWith needle (c :: rest) || listContainsSub needle rest

def strContainsSub (hay needle : String) : Bool :=
  listContainsSub needle.data hay.data

/-- Strip `pre` from the front of `l`, or fail. -/
def stripFront : List Char → List Char → Option (List Char)
  | [], l => some l
  | _ :: _, [] => none
  | a :: as, b :: bs => if b = a then stripFront as bs else none

/-- The greedy capture of `[^&]+`: all characters up to the next ampersand. -/
def takeNonAmp : List Char → List Char
  | [] => []
  | c :: rest => if c = '&' then [] else c :: takeNonAmp rest

/-- First match of the regex `[?&]connectionId=([^&]+)` in a character
list: scan left to right, at a question mark or ampersand try to read the
literal key and a nonempty ampersand-free capture; on failure resume the
scan at the next position. -/
def findConnIdMatch : List Char → Option String
  | [] => none
  | c :: rest =>
    if c = '?' || c = '&' then
      match stripFront "connectionId=".data rest with
      | some tail =>
        let cap := takeNonAmp tail
        if cap.isEmpty then findConnIdMatch rest else some (String.mk cap)
      | none => findConnIdMatch rest
    else findConnIdMatch rest

/-- Hex digit value, for percent-decoding. -/
def hexVal (c : Char) : Option Nat :=
  if '0' ≤ c ∧ c ≤ '9' then some (c.toNat - 48)
  else if 'a' ≤ c ∧ c ≤ 'f' then some (c.toNat - 87)
  else if 'A' ≤ c ∧ c ≤ 'F' then some (c.toNat - 55)
  else none

/-- application/x-www-form-urlencoded decoding used by URLSearchParams:
percent-escapes become bytes, plus becomes space, malformed escapes pass
through unchanged. -/
def formDecode : List Char → List Char
  | [] => []
  | '%' :: a :: b :: rest =>
    match hexVal a, hexVal b with
    | some x, some y => Char.ofNat (16 * x + y) :: formDecode rest
    | _, _ => '%' :: formDecode (a :: b :: rest)
  | '+' :: rest => ' ' :: formDecode rest
  | c :: rest => c :: formDecode rest

/-- Split a character list at every ampersand. -/
def splitAmp : List Char → List (List Char)
  | [] => [[]]
  | '&' :: rest => [] :: splitAmp rest
  | c :: rest =>
    match splitAmp rest with
    | [] => [[c]]
    | seg :: segs => (c :: seg) :: segs

/-- Split one query segment at its first equals sign into key and value. -/
def splitEq : List Char → List Char × List Char
  | [] => ([], [])
  | '=' :: rest => ([], rest)
  | c :: rest =>
    let p := splitEq rest
    (c :: p.1, p.2)

/-- The search string the URL constructor exposes: everything after the
first question mark up to a hash; the fragment begins at the first hash,
so a question mark occurring after a hash starts no query.  (Model of
`new URL` restricted to what the source reads from it; the constructor
never throws on the inputs the router receives, since a synthetic absolute
base is prepended.) -/
def urlSearchOf : List Char → Option (List Char)
  | [] => none
  | '#' :: _ => none
  | '?' :: rest => some (rest.takeWhile (fun c => c ≠ '#'))
  | _ :: rest => urlSearchOf rest

/-- url.searchParams.get(key): first pair of the search string whose decoded
key matches, empty segments skipped, missing value read as empty. -/
def urlSearchParamGet (path : String) (key : String) : Option String :=
  match urlSearchOf path.data with
  | none => none
  | some search =>
    let pairs := (splitAmp search).filter (fun seg => ¬ seg.isEmpty)
    match pairs.find? (fun seg => String.mk (formDecode (splitEq seg).1) = key) with
    | some seg => some (String.mk (formDecode (splitEq seg).2))
    | none => none

/-- Decimal digit character. -/
def digitChar (d : Nat) : Char := Char.ofNat (48 + d)

/-- Decimal digit list of a nonnegative integer, most significant first:
the rendering Number.prototype.toString performs (base 10) on the integer
clock value Date.now() returns. -/
def natDecimal (n : Nat) : List Char :=
  if _h : n < 10 then [digitChar n]
  else natDecimal (n / 10) ++ [digitChar (n % 10)]
decreasing_by exact Nat.div_lt_self (by omega) (by omega)

/-- Date.now().toString(): the decimal string of the clock value. -/
def jsNatToString (n : Nat) : String := String.mk (natDecimal n)

/-! ## Data model and handler state -/

/-- One live session: id, pending message buffer (insertion order is
delivery order) and the event-id cursor. -/
structure SSEConnection where
  id : String
  messages : List String
  lastEventId : Nat
deriving DecidableEq, Repr

/-- The process-wide mutable state of the module: the live connection list,
the broadcast message queue, and the transport connected flag. -/
structure ServerState where
  connections : List SSEConnection
  messageQueue : List Json
  isConnected : Bool

/-- Inbound request shape (FleekFunctionParams). -/
structure FleekFunctionParams where
  method : String
  path : String
  headers : List (String × String) := []
  query : Option (List (String × String)) := none
  body : Option Json := none

/-- Outbound response shape (FleekFunctionResponse). -/
structure FleekFunctionResponse where
  status : Option Nat := none
  headers : Option (List (String × String)) := none
  body : String
deriving DecidableEq, Repr

/-- Query-map lookup (first binding wins, as in a JS record). -/
def queryLookup (q : List (String × String)) (k : String) : Option String :=
  match q.find? (fun p => p.1 = k) with
  | some p => some p.2
  | none => none

/-- getConnectionId: try, in order, (1) the regex match on the raw path,
(2) the structured query map, (3) a connectionId field on an object body,
(4) the URL search parameter; each source is accepted only when truthy.
The value can be any JS value when it comes from the body, so the result is
a modelled JSON value; the string sources wrap their string. -/
def getConnectionId (params : FleekFunctionParams) : Option Json :=
  -- 1. query parameter inside the raw path
  let step1 : Option Json :=
    if strContainsSub params.path "connectionId=" then
      (findConnIdMatch params.path.data).map Json.str
    else none
  match step1 with
  | some v => some v
  | none =>
    -- 2. query object if provided
    let step2 : Option Json :=
      match params.query with
      | some q =>
        match queryLookup q "connectionId" with
        | some v => if v != "" then some (Json.str v) else none
        | none => none
      | none => none
    match step2 with
    | some v => some v
    | none =>
      -- 3. object body with a truthy connectionId field
      let step3 : Option Json :=
        match params.body with
        | some b =>
          match b with
          | .obj _ =>
            let v := jsGetField b "connectionId"
            if jsTruthy v then some v else none
          | .arr _ => none
          | _ => none
        | none => none
      match step3 with
      | some v => some v
      | none =>
        -- 4. URL constructor fallback
        match urlSearchParamGet params.path "connectionId" with
        | some v => if v != "" then some (Json.str v) else none
        | none => none

/-! ## Handlers -/

/-- Update the first list entry satisfying the predicate (the source
mutates, in place, the object returned by Array.prototype.find). -/
def updateFirst (p : SSEConnection → Bool) (f : SSEConnection → SSEConnection) :
    List SSEConnection → List SSEConnection
  | [] => []
  | c :: rest => if p c then f c :: rest else c :: updateFirst p f rest

/-- Headers of every streaming response. -/
def streamHeaders : List (String × String) :=
  [("Content-Type", "text/event-stream"),
   ("Cache-Control", "no-cache"),
   ("Connection", "keep-alive")]

/-- handleSSE: allocate a session whose id is the current time rendered in
decimal (Date.now().toString()), append it to the live list, and answer
with the header text followed by the connected event inside the body. -/
def handleSSE (now : Nat) (st : ServerState) :
    ServerState × FleekFunctionResponse :=
  let connectionId := jsNatToString now
  let connection : SSEConnection :=
    { id := connectionId, messages := [], lastEventId := 0 }
  let sseResponse :=
    "Content-Type: text/event-stream\nCache-Control: no-cache\nConnection: keep-alive\n\n"
      ++ "event: connected\ndata: \x7b\"connectionId\":\"" ++ connectionId
      ++ "\"\x7d\n\n"
  ({ st with connections := st.connections ++ [connection] },
   { status := none, headers := some streamHeaders, body := sseResponse })

/-- The forEach loop of getSSEMessages: fold over the drained messages,
appending one frame per message; the accumulator carries the response text
built so far and the running index. -/
def sseFrameLoop (k : Nat) (msgs : List String) : String :=
  (msgs.foldl
    (fun acc msg =>
      (acc.1 ++ "id: " ++ toString (k + acc.2 + 1) ++ "\nevent: message\ndata: "
         ++ msg ++ "\n\n",
       acc.2 + 1))
    (("", 0) : String × Nat)).1

/-- getSSEMessages: re-extract a missing id, answer 400 on no id, 404 on an
unknown session, otherwise drain the buffer of the first matching session,
frame the drained payloads, advance the cursor, and fall back to a ping
frame when the framed text is empty. -/
def getSSEMessages (connectionId : Option Json) (params : FleekFunctionParams)
    (st : ServerState) : ServerState × FleekFunctionResponse :=
  let cid : Option Json :=
    match connectionId with
    | some v => if jsTruthy v then some v else getConnectionId params
    | none => getConnectionId params
  match cid with
  | none =>
    (st, { status := some 400,
           body := Json.stringify (Json.obj
             ([("error", Json.str "Missing connectionId parameter"),
               ("path", Json.str params.path)] ++
              (match params.query with
               | some q =>
                 [("query", Json.obj (q.map (fun p => (p.1, Json.str p.2))))]
               | none => []))) })
  | some cidv =>
    match st.connections.find? (fun conn => jsStrictEqStr conn.id cidv) with
    | none =>
      (st, { status := some 404,
             body := Json.stringify (Json.obj
               [("error", Json.str "Connection not found"),
                ("connectionId", cidv),
                ("availableConnections", Json.num st.connections.length)]) })
    | some connection =>
      let response := sseFrameLoop connection.lastEventId connection.messages
      let newConns := updateFirst (fun conn => jsStrictEqStr conn.id cidv)
        (fun conn => { conn with
                       messages := [],
                       lastEventId := conn.lastEventId + conn.messages.length })
        st.connections
      ({ st with connections := newConns },
       { status := none, headers := some streamHeaders,
         body := if response = "" then "event: ping\ndata: \x7b\x7d\n\n"
                 else response })

/-- FleekTransport.send: drop the message silently when the transport is
not connected; otherwise push it on the broadcast queue and append its
serialization to the buffer of every live session. -/
def FleekTransport.send (message : Json) (st : ServerState) : ServerState :=
  if st.isConnected then
    { st with
      messageQueue := st.messageQueue ++ [message],
      connections := st.connections.map
        (fun conn =>
          { conn with messages := conn.messages ++ [Json.stringify message] }) }
  else st

/-- The opaque protocol handler reached through
transport.handleIncomingMessage: it receives the normalized message, may
mutate the shared state (for example by calling send), and a thrown
exception is modelled by an error result carrying its message. -/
abbrev Handler := ServerState → Json → ServerState × Except String Unit

/-- handleMessage: re-extract a missing id, answer 400 on no id, 404 on an
unknown session; a nullish body then makes the property read body.type
throw a TypeError inside the try block, answered as a 500 carrying that
message with the handler never invoked; otherwise normalize the body by JS
truthiness of its type, name and message fields, hand it to the protocol
handler, and answer 200 on success or 500 with the error message when the
handler throws. -/
def handleMessage (handler : Handler) (body : Json)
    (connectionId : Option Json) (params : FleekFunctionParams)
    (st : ServerState) : ServerState × FleekFunctionResponse :=
  let cid : Option Json :=
    match connectionId with
    | some v => if jsTruthy v then some v else getConnectionId params
    | none => getConnectionId params
  match cid with
  | none =>
    (st, { status := some 400,
           body := Json.stringify (Json.obj
             [("error", Json.str "Missing connectionId parameter"),
              ("details", Json.str
                "Please include connectionId in the URL query parameter or request body"),
              ("path", Json.str params.path)]) })
  | some cidv =>
    match st.connections.find? (fun conn => jsStrictEqStr conn.id cidv) with
    | none =>
      (st, { status := some 404,
             body := Json.stringify (Json.obj
               [("error", Json.str "Connection not found"),
                ("connectionId", cidv),
                ("availableConnections", Json.num st.connections.length)]) })
    | some _ =>
      if jsIsNullish body then
        (st, { status := some 500,
               body := Json.stringify (Json.obj
                 [("error", Json.str nullBodyTypeError), ("connectionId", cidv)]) })
      else
      let messageContent :=
        if jsTruthy (jsGetField body "type") && jsTruthy (jsGetField body "name")
        then body
        else if jsTruthy (jsGetField body "message") then jsGetField body "message"
        else body
      match handler st messageContent with
      | (st2, .ok _) =>
        (st2, { status := some 200,
                body := Json.stringify (Json.obj
                  [("status", Json.str "received"), ("connectionId", cidv)]) })
      | (st2, .error msg) =>
        (st2, { status := some 500,
                body := Json.stringify (Json.obj
                  [("error", Json.str msg), ("connectionId", cidv)]) })

/-- State after the transport has been started by the lazy initializer. -/
def ServerState.initial : ServerState :=
  { connections := [], messageQueue := [], isConnected := true }

/-- The registry-facing operations the router exposes: opening a session,
a broadcast send, and a poll for a session id. -/
inductive Op where
  | openSession (now : Nat)
  | sendMsg (message : Json)
  | pollSession (cid : String)

/-- One router step together with the poll log: a poll that finds its
session also records the session id and the event ids of the frames it
emits (tied to the actual body text by the poll body theorems). -/
def runOp (st : ServerState) (log : List (String × List Nat)) :
    Op → ServerState × List (String × List Nat)
  | .openSession now => ((handleSSE now st).1, log)
  | .sendMsg m => (FleekTransport.send m st, log)
  | .pollSession cid =>
    let entry :=
      match st.connections.find? (fun conn => jsStrictEqStr conn.id (Json.str cid)) with
      | some conn =>
        [(cid, (List.range conn.messages.length).map
                 (fun i => conn.lastEventId + i + 1))]
      | none => []
    ((getSSEMessages (some (Json.str cid))
        { method := "GET", path := "/poll" } st).1,
     log ++ entry)

/-- Run a sequence of operations from the started initial state. -/
def runOps (ops : List Op) : ServerState × List (String × List Nat) :=
  ops.foldl (fun acc op => runOp acc.1 acc.2 op) (ServerState.initial, [])

/-! ## Wire-shape definitions used by the statements -/

/-- The wire text of one message frame. -/
def messageFrame (eventId : Nat) (payload : String) : String :=
  "id: " ++ toString eventId ++ "\nevent: message\ndata: " ++ payload ++ "\n\n"

/-- One frame per payload, ids k+1, k+2, ...: the body shape the ordering
claims require of a poll. -/
def framesFrom (k : Nat) : List String → String
  | [] => ""
  | m :: ms => messageFrame (k + 1) m ++ framesFrom (k + 1) ms

/-- The heartbeat frame emitted by an empty poll. -/
def pingFrame : String := "event: ping\ndata: \x7b\x7d\n\n"

/-- The framing shape asserted by the wire-contract sentence of the
specification: the whole body is a concatenation of frames, each an id line
carrying an integer, an event line with one of the three event types, a
data line, and a terminating blank line, with no other text before,
between, or after them. -/
inductive IsFrameConcat : String → Prop where
  | nil : IsFrameConcat ""
  | cons (n : Nat) (t payload rest : String)
      (ht : t = "connected" ∨ t = "message" ∨ t = "ping")
      (hrest : IsFrameConcat rest) :
      IsFrameConcat ("id: " ++ toString n ++ "\nevent: " ++ t ++ "\ndata: "
        ++ payload ++ "\n\n" ++ rest)

/-- The response handleMessage builds from the handler outcome: a 200
acknowledgment carrying status received and the session id on success, a
500 carrying the error message and the session id on a throw. -/
def deliveryResponse (cid : Json) (r : Except String Unit) : FleekFunctionResponse :=
  match r with
  | .ok _ =>
    { status := some 200,
      body := Json.stringify (Json.obj
        [("status", Json.str "received"), ("connectionId", cid)]) }
  | .error m =>
    { status := some 500,
      body := Json.stringify (Json.obj
        [("error", Json.str m), ("connectionId", cid)]) }

/-- The 404 response both lookup paths build for an unknown session. -/
def notFoundResponse (cid : Json) (live : Nat) : FleekFunctionResponse :=
  { status := some 404,
    body := Json.stringify (Json.obj
      [("error", Json.str "Connection not found"),
       ("connectionId", cid),
       ("availableConnections", Json.num live)]) }

/-- All event ids recorded in the poll log for one session id, in emission
order. -/
def emittedFor (cid : String) (log : List (String × List Nat)) : List Nat :=
  ((log.filter (fun e => e.1 = cid)).map (fun e => e.2)).flatten

/-- The connection found for a session id, if any (first match, as
Array.prototype.find returns). -/
def findConn (st : ServerState) (cid : String) : Option SSEConnection :=
  st.connections.find? (fun conn => jsStrictEqStr conn.id (Json.str cid))

/-- Invariant tying the poll log to the registry: no live session carries
an empty id, and the ids emitted so far for a session id form exactly the
contiguous range 1..cursor of its current event-id cursor. -/
def RegistryInv (st : ServerState) (log : List (String × List Nat)) : Prop :=
  (∀ conn ∈ st.connections, conn.id ≠ "") ∧
  ∀ cid : String,
    match st.connections.find? (fun conn => jsStrictEqStr conn.id (Json.str cid)) with
    | some conn => emittedFor cid log = List.range' 1 conn.lastEventId
    | none => emittedFor cid log = []

/-! ## Helper lemmas -/

theorem strData_inj {a b : String} (h : a.data = b.data) : a = b := by
  cases a; cases b; exact congrArg String.mk h

theorem sseFrameLoop_go (k : Nat) :
    ∀ (ms : List String) (a : String) (i : Nat),
      (ms.foldl
        (fun acc msg =>
          (acc.1 ++ "id: " ++ toString (k + acc.2 + 1) ++ "\nevent: message\ndata: "
             ++ msg ++ "\n\n",
           acc.2 + 1)) (a, i)).1 = a ++ framesFrom (k + i) ms := by
  intro ms
  induction ms with
  | nil =>
    intro a i
    show a = a ++ framesFrom (k + i) []
    rw [framesFrom]
    exact (String.append_empty a).symm
  | cons m ms ih =>
    intro a i
    show (List.foldl _ (a ++ "id: " ++ toString (k + i + 1)
        ++ "\nevent: message\ndata: " ++ m ++ "\n\n", i + 1) ms).1 = _
    rw [ih]
    show _ = a ++ (messageFrame (k + i + 1) m ++ framesFrom (k + i + 1) ms)
    rw [messageFrame]
    simp only [String.append_assoc]
    rfl

theorem sseFrameLoop_eq (k : Nat) (ms : List String) :
    sseFrameLoop k ms = framesFrom k ms := by
  rw [sseFrameLoop, sseFrameLoop_go]
  rfl

theorem updateFirst_length (p : SSEConnection → Bool) (f : SSEConnection → SSEConnection) :
    ∀ l, (updateFirst p f l).length = l.length := by
  intro l
  induction l with
  | nil => rfl
  | cons c rest ih => cases hpc : p c <;> simp [updateFirst, hpc, ih]

theorem updateFirst_map {α : Type} (p : SSEConnection → Bool)
    (f : SSEConnection → SSEConnection) (g : SSEConnection → α)
    (hg : ∀ x, p x = true → g (f x) = g x) :
    ∀ l, (updateFirst p f l).map g = l.map g := by
  intro l
  induction l with
  | nil => rfl
  | cons c rest ih =>
    cases hpc : p c with
    | true => simp [updateFirst, hpc, hg c hpc]
    | false => simp [updateFirst, hpc, ih]

theorem updateFirst_get?_of_not (p : SSEConnection → Bool)
    (f : SSEConnection → SSEConnection) :
    ∀ (l : List SSEConnection) (i : Nat) (c0 : SSEConnection),
      l.get? i = some c0 → p c0 = false → (updateFirst p f l).get? i = some c0 := by
  intro l
  induction l with
  | nil => intro i c0 h; simp at h
  | cons c rest ih =>
    intro i c0 h hp
    cases hpc : p c with
    | true =>
      cases i with
      | zero =>
        simp at h
        subst h
        rw [hpc] at hp
        cases hp
      | succ j => simpa [updateFirst, hpc] using h
    | false =>
      cases i with
      | zero => simpa [updateFirst, hpc] using h
      | succ j =>
        have h' : rest.get? j = some c0 := by simpa using h
        simpa [updateFirst, hpc] using ih j c0 h' hp

theorem find?_updateFirst_self (p : SSEConnection → Bool)
    (f : SSEConnection → SSEConnection) :
    ∀ (l : List SSEConnection) (c : SSEConnection),
      l.find? p = some c → p (f c) = true →
      (updateFirst p f l).find? p = some (f c) := by
  intro l
  induction l with
  | nil => intro c h; simp [List.find?] at h
  | cons a rest ih =>
    intro c h hf
    cases hpa : p a with
    | true =>
      have hca : c = a := by
        rw [List.find?_cons_of_pos rest hpa] at h
        exact (Option.some_inj.mp h).symm
      subst hca
      simp [updateFirst, hpa, List.find?_cons_of_pos _ hf]
    | false =>
      rw [List.find?_cons_of_neg rest (by simp [hpa])] at h
      have hrec := ih c h hf
      have hup : updateFirst p f (a :: rest) = a :: updateFirst p f rest := by
        simp [updateFirst, hpa]
      rw [hup, List.find?_cons_of_neg _ (by simp [hpa])]
      exact hrec

theorem find?_updateFirst_other (p q : SSEConnection → Bool)
    (f : SSEConnection → SSEConnection)
    (hpq : ∀ x, p x = true → q x = false ∧ q (f x) = false) :
    ∀ l, (updateFirst p f l).find? q = l.find? q := by
  intro l
  induction l with
  | nil => rfl
  | cons c rest ih =>
    cases hpc : p c with
    | true =>
      have hq := hpq c hpc
      have hup : updateFirst p f (c :: rest) = f c :: rest := by
        simp [updateFirst, hpc]
      rw [hup, List.find?_cons_of_neg _ (by simp [hq.2]),
          List.find?_cons_of_neg _ (by simp [hq.1])]
    | false =>
      have hup : updateFirst p f (c :: rest) = c :: updateFirst p f rest := by
        simp [updateFirst, hpc]
      rw [hup]
      cases hqc : q c with
      | true => rw [List.find?_cons_of_pos _ hqc, List.find?_cons_of_pos _ hqc]
      | false =>
        rw [List.find?_cons_of_neg _ (by simp [hqc]),
            List.find?_cons_of_neg _ (by simp [hqc])]
        exact ih

theorem find?_map_conn (g : SSEConnection → SSEConnection) (q : SSEConnection → Bool)
    (hg : ∀ x, q (g x) = q x) :
    ∀ l : List SSEConnection, (l.map g).find? q = (l.find? q).map g := by
  intro l
  induction l with
  | nil => rfl
  | cons c rest ih =>
    cases hqc : q c with
    | true =>
      rw [List.map_cons, List.find?_cons_of_pos _ (by rw [hg]; exact hqc),
          List.find?_cons_of_pos _ hqc]
      rfl
    | false =>
      rw [List.map_cons, List.find?_cons_of_neg _ (by simp [hg, hqc]),
          List.find?_cons_of_neg _ (by simp [hqc])]
      exact ih

theorem find?_append_conn (q : SSEConnection → Bool) :
    ∀ (l₁ l₂ : List SSEConnection),
      (l₁ ++ l₂).find? q =
        match l₁.find? q with
        | some c => some c
        | none => l₂.find? q := by
  intro l₁ l₂
  induction l₁ with
  | nil => rfl
  | cons c rest ih =>
    cases hqc : q c with
    | true =>
      rw [List.cons_append, List.find?_cons_of_pos _ hqc, List.find?_cons_of_pos _ hqc]
    | false =>
      rw [List.cons_append, List.find?_cons_of_neg _ (by simp [hqc]),
          List.find?_cons_of_neg _ (by simp [hqc])]
      exact ih

theorem digitChar_inj {a b : Nat} (ha : a < 10) (hb : b < 10)
    (h : digitChar a = digitChar b) : a = b := by
  interval_cases a <;> interval_cases b <;> revert h <;> decide

theorem natDecimal_ne_nil (n : Nat) : natDecimal n ≠ [] := by
  rw [natDecimal]
  split
  · simp
  · simp

theorem natDecimal_inj : ∀ a b : Nat, natDecimal a = natDecimal b → a = b := by
  intro a
  induction a using Nat.strong_induction_on with
  | _ a ih =>
    intro b h
    have unfoldLow : ∀ m : Nat, m < 10 → natDecimal m = [digitChar m] := by
      intro m hm
      rw [natDecimal]
      exact dif_pos hm
    have unfoldHigh : ∀ m : Nat, ¬ m < 10 →
        natDecimal m = natDecimal (m / 10) ++ [digitChar (m % 10)] := by
      intro m hm
      rw [natDecimal]
      exact dif_neg hm
    by_cases ha : a < 10 <;> by_cases hb : b < 10
    · rw [unfoldLow a ha, unfoldLow b hb] at h
      exact digitChar_inj ha hb (by simpa using h)
    · rw [unfoldLow a ha, unfoldHigh b hb] at h
      have hlen := congrArg List.length h
      simp at hlen
      exact absurd hlen (natDecimal_ne_nil _)
    · rw [unfoldHigh a ha, unfoldLow b hb] at h
      have hlen := congrArg List.length h
      simp at hlen
      exact absurd hlen (natDecimal_ne_nil _)
    · rw [unfoldHigh a ha, unfoldHigh b hb] at h
      have hp := List.append_inj' h (by simp)
      have hdiv : a / 10 = b / 10 :=
        ih (a / 10) (Nat.div_lt_self (by omega) (by omega)) (b / 10) hp.1
      have hmod : a % 10 = b % 10 :=
        digitChar_inj (Nat.mod_lt _ (by omega)) (Nat.mod_lt _ (by omega))
          (by simpa using hp.2)
      omega

theorem jsNatToString_inj {a b : Nat} (h : jsNatToString a = jsNatToString b) :
    a = b :=
  natDecimal_inj a b (by simpa [jsNatToString] using congrArg String.data h)

theorem jsNatToString_ne_empty (n : Nat) : jsNatToString n ≠ "" := by
  intro h
  exact natDecimal_ne_nil n (by simpa [jsNatToString] using congrArg String.data h)

theorem range_map_add (k : Nat) :
    ∀ n, (List.range n).map (fun i => k + i + 1) = List.range' (k + 1) n := by
  intro n
  induction n with
  | zero => rfl
  | succ n ih =>
    rw [List.range_succ, List.map_append, ih, List.range'_1_concat]
    simp [Nat.add_comm, Nat.add_left_comm, Nat.add_assoc]

theorem range'_one_glue (k n : Nat) :
    List.range' 1 k ++ List.range' (k + 1) n = List.range' 1 (k + n) := by
  have := List.range'_append 1 k n 1
  simp only [Nat.one_mul] at this
  rw [Nat.add_comm 1 k] at this
  rw [this, Nat.add_comm n k]

theorem messageFrame_head (eventId : Nat) (payload : String) (r : String) :
    ((messageFrame eventId payload) ++ r).data.head? = some 'i' := by
  rw [messageFrame]
  simp only [String.append_assoc]
  show (("id: " ++ _ : String)).data.head? = some 'i'
  rw [String.data_append]
  rfl

theorem framesFrom_ne_empty (k : Nat) (m : String) (ms : List String) :
    framesFrom k (m :: ms) ≠ "" := by
  intro h
  have hd := congrArg String.data h
  rw [framesFrom, String.data_append] at hd
  have : (messageFrame (k + 1) m).data = [] := by
    cases hmf : (messageFrame (k + 1) m).data with
    | nil => rfl
    | cons c cs =>
      rw [hmf] at hd
      simp at hd
  have hh := messageFrame_head (k + 1) m ""
  rw [String.data_append, this] at hh
  simp at hh

theorem getSSEMessages_found (st : ServerState) (params : FleekFunctionParams)
    (cidv : Json) (c : SSEConnection)
    (htr : jsTruthy cidv = true)
    (hfind : st.connections.find? (fun conn => jsStrictEqStr conn.id cidv) = some c) :
    getSSEMessages (some cidv) params st =
      ({ st with connections := updateFirst (fun conn => jsStrictEqStr conn.id cidv) (fun conn => { conn with messages := [], lastEventId := conn.lastEventId + conn.messages.length }) st.connections },
       { status := none, headers := some streamHeaders,
         body := if c.messages = [] then pingFrame
                 else framesFrom c.lastEventId c.messages }) := by
  rw [getSSEMessages]
  simp only [htr, if_true, hfind]
  rw [sseFrameLoop_eq]
  cases hms : c.messages with
  | nil => simp [framesFrom, pingFrame]
  | cons m ms => simp [framesFrom_ne_empty c.lastEventId m ms]

theorem getSSEMessages_notfound (st : ServerState) (params : FleekFunctionParams)
    (cidv : Json)
    (htr : jsTruthy cidv = true)
    (hfind : st.connections.find? (fun conn => jsStrictEqStr conn.id cidv) = none) :
    getSSEMessages (some cidv) params st =
      (st, notFoundResponse cidv st.connections.length) := by
  rw [getSSEMessages]
  simp only [htr, if_true, hfind]
  rfl

theorem handleMessage_found (handler : Handler) (body : Json) (cidv : Json)
    (params : FleekFunctionParams) (st : ServerState) (c : SSEConnection)
    (htr : jsTruthy cidv = true)
    (hfind : st.connections.find? (fun conn => jsStrictEqStr conn.id cidv) = some c)
    (hnn : jsIsNullish body = false) :
    handleMessage handler body (some cidv) params st =
      (let mc :=
        if jsTruthy (jsGetField body "type") && jsTruthy (jsGetField body "name")
        then body
        else if jsTruthy (jsGetField body "message") then jsGetField body "message"
        else body
       ((handler st mc).1, deliveryResponse cidv (handler st mc).2)) := by
  rw [handleMessage]
  simp only [htr, if_true, hfind, hnn, Bool.false_eq_true, if_false]
  rcases hr : handler st
      (if jsTruthy (jsGetField body "type") && jsTruthy (jsGetField body "name")
       then body
       else if jsTruthy (jsGetField body "message") then jsGetField body "message"
       else body) with ⟨st2, r⟩
  cases r with
  | ok u => simp [deliveryResponse]
  | error m => simp [deliveryResponse]

theorem handleMessage_nullBody (handler : Handler) (cidv : Json)
    (params : FleekFunctionParams) (st : ServerState) (c : SSEConnection)
    (htr : jsTruthy cidv = true)
    (hfind : st.connections.find? (fun conn => jsStrictEqStr conn.id cidv) = some c) :
    handleMessage handler Json.null (some cidv) params st =
      (st, { status := some 500, headers := none,
             body := Json.stringify (Json.obj
               [("error", Json.str nullBodyTypeError), ("connectionId", cidv)]) }) := by
  rw [handleMessage]
  simp only [htr, if_true, hfind]
  rfl

theorem handleMessage_notfound (handler : Handler) (body : Json) (cidv : Json)
    (params : FleekFunctionParams) (st : ServerState)
    (htr : jsTruthy cidv = true)
    (hfind : st.connections.find? (fun conn => jsStrictEqStr conn.id cidv) = none) :
    handleMessage handler body (some cidv) params st =
      (st, notFoundResponse cidv st.connections.length) := by
  rw [handleMessage]
  simp only [htr, if_true, hfind]
  rfl

theorem emittedFor_append_same (cid : String) (ids : List Nat)
    (log : List (String × List Nat)) :
    emittedFor cid (log ++ [(cid, ids)]) = emittedFor cid log ++ ids := by
  simp [emittedFor, List.filter_append]

theorem emittedFor_append_other (cid : String) (e : String × List Nat)
    (log : List (String × List Nat)) (h : e.1 ≠ cid) :
    emittedFor cid (log ++ [e]) = emittedFor cid log := by
  simp [emittedFor, List.filter_append, h]

theorem registryInv_initial : RegistryInv ServerState.initial [] := by
  constructor
  · intro conn hc
    simp [ServerState.initial] at hc
  · intro cid
    simp [ServerState.initial, List.find?, emittedFor]

theorem runOp_inv (st : ServerState) (log : List (String × List Nat)) (op : Op)
    (h : RegistryInv st log) :
    RegistryInv (runOp st log op).1 (runOp st log op).2 := by
  obtain ⟨hids, hlog⟩ := h
  cases op with
  | openSession now =>
    constructor
    · intro conn hc
      simp only [runOp, handleSSE, List.mem_append, List.mem_singleton] at hc
      rcases hc with hc | hc
      · exact hids conn hc
      · rw [hc]
        exact jsNatToString_ne_empty now
    · intro cid
      simp only [runOp, handleSSE]
      rw [find?_append_conn]
      cases hf : st.connections.find? (fun conn => jsStrictEqStr conn.id (Json.str cid)) with
      | some c =>
        have hl := hlog cid
        rw [hf] at hl
        exact hl
      | none =>
        have hl := hlog cid
        rw [hf] at hl
        by_cases he : jsNatToString now = cid
        · simp [List.find?, jsStrictEqStr, he, hl]
        · simp [List.find?, jsStrictEqStr, he, hl]
  | sendMsg m =>
    simp only [runOp, FleekTransport.send]
    cases hcon : st.isConnected with
    | false =>
      simp only [hcon, Bool.false_eq_true, if_false]
      exact ⟨hids, hlog⟩
    | true =>
      simp only [hcon, if_true]
      constructor
      · intro conn hc
        simp only [List.mem_map] at hc
        obtain ⟨x, hx, hxe⟩ := hc
        rw [← hxe]
        exact hids x hx
      · intro cid
        have hmf := find?_map_conn
          (fun conn => { conn with messages := conn.messages ++ [Json.stringify m] })
          (fun conn => jsStrictEqStr conn.id (Json.str cid)) (fun x => rfl)
          st.connections
        simp only [hmf]
        cases hf : st.connections.find? (fun conn => jsStrictEqStr conn.id (Json.str cid)) with
        | some c =>
          have hl := hlog cid
          rw [hf] at hl
          exact hl
        | none =>
          have hl := hlog cid
          rw [hf] at hl
          exact hl
  | pollSession cid0 =>
    simp only [runOp]
    cases hf : st.connections.find? (fun conn => jsStrictEqStr conn.id (Json.str cid0)) with
    | none =>
      simp only [hf, List.append_nil]
      by_cases he : cid0 = ""
      · subst he
        have hstate :
            (getSSEMessages (some (Json.str ""))
              { method := "GET", path := "/poll" } st).1 = st := rfl
        rw [hstate]
        exact ⟨hids, hlog⟩
      · rw [getSSEMessages_notfound _ _ _ (by simp [jsTruthy, he]) hf]
        exact ⟨hids, hlog⟩
    | some c =>
      have hcin : c ∈ st.connections := List.mem_of_find?_eq_some hf
      have hcideq : c.id = cid0 := by
        have hp := List.find?_some hf
        simpa [jsStrictEqStr] using hp
      have hne : cid0 ≠ "" := by
        rw [← hcideq]
        exact hids c hcin
      rw [getSSEMessages_found st _ _ c (by simp [jsTruthy, hne]) hf]
      simp only [hf]
      constructor
      · intro conn hc
        have hmap := updateFirst_map (fun conn => jsStrictEqStr conn.id (Json.str cid0))
          (fun conn => { conn with messages := [], lastEventId := conn.lastEventId + conn.messages.length })
          (fun x => x.id) (fun x _ => rfl) st.connections
        have hmem : conn.id ∈ (updateFirst (fun conn => jsStrictEqStr conn.id (Json.str cid0))
            (fun conn => { conn with messages := [], lastEventId := conn.lastEventId + conn.messages.length })
            st.connections).map (fun x => x.id) := List.mem_map_of_mem _ hc
        rw [hmap] at hmem
        obtain ⟨x, hx, hxe⟩ := List.mem_map.mp hmem
        rw [← hxe]
        exact hids x hx
      · intro cid
        by_cases hcc : cid = cid0
        · subst hcc
          rw [find?_updateFirst_self _ _ _ c hf (by simpa [jsStrictEqStr] using hcideq)]
          have hl := hlog cid
          rw [hf] at hl
          rw [emittedFor_append_same, hl, range_map_add, range'_one_glue]
        · rw [find?_updateFirst_other _ _ _ ?side]
          case side =>
            intro x hpx
            have hxid : x.id = cid0 := by simpa [jsStrictEqStr] using hpx
            constructor
            · simp [jsStrictEqStr, hxid]
              intro hcontra
              exact hcc hcontra.symm
            · simp [jsStrictEqStr, hxid]
              intro hcontra
              exact hcc hcontra.symm
          rw [emittedFor_append_other cid _ log (fun hcontra => hcc hcontra.symm)]
          exact hlog cid

theorem runOps_inv (ops : List Op) :
    RegistryInv (runOps ops).1 (runOps ops).2 := by
  rw [runOps]
  have hstep : ∀ (l : List Op) (st : ServerState) (log : List (String × List Nat)),
      RegistryInv st log →
      RegistryInv (l.foldl (fun acc op => runOp acc.1 acc.2 op) (st, log)).1
        (l.foldl (fun acc op => runOp acc.1 acc.2 op) (st, log)).2 := by
    intro l
    induction l with
    | nil => intro st log h; exact h
    | cons op ops ih =>
      intro st log h
      simp only [List.foldl]
      exact ih _ _ (runOp_inv st log op h)
  exact hstep ops _ _ registryInv_initial

theorem head_append_i (r : String) : ("id: " ++ r).data.head? = some 'i' := by
  rw [String.data_append]
  rfl

theorem isFrameConcat_head {s : String} (h : IsFrameConcat s) :
    s.data = [] ∨ s.data.head? = some 'i' := by
  cases h with
  | nil => left; rfl
  | cons n t payload rest ht hrest =>
    right
    simp only [String.append_assoc]
    exact head_append_i _

/-! ## Claim theorems -/

/-- C1 counterexample: the body emitted when opening a session via /sse is
not a concatenation of id/event/data/blank frames — it starts with header
text placed inside the body, and its connected event carries no id line. -/
theorem sse_open_body_violates_frame_contract :
    ¬ IsFrameConcat (handleSSE 0 ServerState.initial).2.body := by
  intro h
  have hC : (handleSSE 0 ServerState.initial).2.body.data.head? = some 'C' := rfl
  rcases isFrameConcat_head h with hnil | hhead
  · rw [hnil] at hC
    exact Option.noConfusion hC
  · rw [hC] at hhead
    exact absurd (Option.some.inj hhead) (by decide)

/-- C1 (amended): the message events emitted by GET /poll follow the
id/event/data/blank frame contract exactly and are concatenated with no
other text; but the connected event of /sse carries no id line and is
preceded by header text inside the body, and the ping frame of an empty
poll likewise carries no id line. -/
theorem wire_framing_shape (st : ServerState) (params : FleekFunctionParams)
    (now : Nat) (cidv : Json) (c : SSEConnection)
    (htr : jsTruthy cidv = true)
    (hfind : st.connections.find? (fun conn => jsStrictEqStr conn.id cidv) = some c) :
    ((getSSEMessages (some cidv) params st).2.body
        = if c.messages = [] then pingFrame else framesFrom c.lastEventId c.messages)
  ∧ (pingFrame = "event: ping\ndata: \x7b\x7d\n\n")
  ∧ (∀ (k : Nat) (m : String) (ms : List String),
      framesFrom k (m :: ms)
        = "id: " ++ toString (k + 1) ++ "\nevent: message\ndata: " ++ m ++ "\n\n"
            ++ framesFrom (k + 1) ms)
  ∧ ((handleSSE now st).2.body
      = "Content-Type: text/event-stream\nCache-Control: no-cache\nConnection: keep-alive\n\n"
          ++ "event: connected\ndata: \x7b\"connectionId\":\"" ++ jsNatToString now
          ++ "\"\x7d\n\n") := by
  refine ⟨?_, rfl, ?_, rfl⟩
  · rw [getSSEMessages_found st params cidv c htr hfind]
  · intro k m ms
    rw [framesFrom, messageFrame]

/-- C1 witness: a poll of a session holding one buffered payload yields
exactly one well-shaped message frame. -/
theorem wire_framing_shape_witness :
    (getSSEMessages (some (Json.str "7")) { method := "GET", path := "/poll" }
      { connections := [{ id := "7", messages := ["hello"], lastEventId := 3 }],
        messageQueue := [], isConnected := true }).2.body
      = "id: 4\nevent: message\ndata: hello\n\n" := by
  have h := wire_framing_shape
    { connections := [{ id := "7", messages := ["hello"], lastEventId := 3 }],
      messageQueue := [], isConnected := true }
    { method := "GET", path := "/poll" } 0 (Json.str "7")
    { id := "7", messages := ["hello"], lastEventId := 3 }
    (by decide) (by decide)
  rw [h.1]
  decide

/-- C4: the transport send drops the message without touching any session
buffer when the transport is not connected; when connected it appends the
serialized message to the broadcast queue and to the buffer of every live
session, so with two open sessions one send reaches both buffers. -/
theorem send_broadcast_all (st : ServerState) (m : Json) :
    (st.isConnected = false → FleekTransport.send m st = st)
  ∧ (st.isConnected = true →
      (FleekTransport.send m st).connections
          = st.connections.map
              (fun conn => { conn with messages := conn.messages ++ [Json.stringify m] })
        ∧ (FleekTransport.send m st).messageQueue = st.messageQueue ++ [m])
  ∧ (∀ c1 c2 : SSEConnection, st.isConnected = true → st.connections = [c1, c2] →
      (FleekTransport.send m st).connections
        = [{ c1 with messages := c1.messages ++ [Json.stringify m] },
           { c2 with messages := c2.messages ++ [Json.stringify m] }]) := by
  refine ⟨?_, ?_, ?_⟩
  · intro hoff
    rw [FleekTransport.send, hoff]
    rfl
  · intro hon
    rw [FleekTransport.send, hon]
    exact ⟨rfl, rfl⟩
  · intro c1 c2 hon hconns
    rw [FleekTransport.send, hon]
    simp only [if_true]
    rw [hconns]
    rfl

/-- C4 witness: a concrete disconnected send is a no-op and a concrete
connected send reaches both of two open sessions. -/
theorem send_broadcast_all_witness :
    (FleekTransport.send Json.null
        { connections := [], messageQueue := [], isConnected := false }
      = { connections := [], messageQueue := [], isConnected := false })
  ∧ (FleekTransport.send Json.null
        { connections := [{ id := "1", messages := [], lastEventId := 0 },
                          { id := "2", messages := [], lastEventId := 0 }],
          messageQueue := [], isConnected := true }).connections
      = [{ id := "1", messages := [Json.stringify Json.null], lastEventId := 0 },
         { id := "2", messages := [Json.stringify Json.null], lastEventId := 0 }] := by
  constructor
  · exact (send_broadcast_all
      { connections := [], messageQueue := [], isConnected := false } Json.null).1 rfl
  · exact (send_broadcast_all
      { connections := [{ id := "1", messages := [], lastEventId := 0 },
                        { id := "2", messages := [], lastEventId := 0 }],
        messageQueue := [], isConnected := true } Json.null).2.2
      { id := "1", messages := [], lastEventId := 0 }
      { id := "2", messages := [], lastEventId := 0 } rfl rfl

/-- C5 counterexample: two sessions opened within the same clock
millisecond receive the same id — session ids are not distinct under
creations faster than the clock resolution. -/
theorem session_id_collision :
    ((handleSSE 5 ((handleSSE 5 ServerState.initial).1)).1.connections.map
        (fun conn => conn.id)
      = [jsNatToString 5, jsNatToString 5])
  ∧ ¬ ((handleSSE 5 ((handleSSE 5 ServerState.initial).1)).1.connections.map
        (fun conn => conn.id)).Nodup := by
  constructor
  · rfl
  · intro h
    have h2 : ([jsNatToString 5, jsNatToString 5] : List String).Nodup := h
    simp at h2

/-- C5 (amended): session creation appends a session with empty buffer and
zero cursor whose id is the decimal rendering of the creation clock value;
creations at distinct clock values therefore receive distinct ids, while
creations within one clock millisecond collide. -/
theorem session_id_allocation (st : ServerState) (t1 t2 : Nat) (h : t1 ≠ t2) :
    ((handleSSE t1 st).1.connections
        = st.connections
            ++ [{ id := jsNatToString t1, messages := [], lastEventId := 0 }])
  ∧ jsNatToString t1 ≠ jsNatToString t2 := by
  refine ⟨rfl, ?_⟩
  intro he
  exact h (jsNatToString_inj he)

/-- C5 witness: creations at clock values 1 and 2 from the empty registry
get distinct ids. -/
theorem session_id_allocation_witness :
    ((handleSSE 1 ServerState.initial).1.connections
        = [{ id := jsNatToString 1, messages := [], lastEventId := 0 }])
  ∧ jsNatToString 1 ≠ jsNatToString 2 := by
  have h := session_id_allocation ServerState.initial 1 2 (by decide)
  exact ⟨h.1, h.2⟩

/-- C7: a poll or a delivery whose truthy session id matches no live
session returns the 404-shaped response whose body names the requested id
and the live-session count, leaves the state unchanged, and is in
particular neither a 500 nor a success. -/
theorem unknown_session_404 (st : ServerState) (params : FleekFunctionParams)
    (handler : Handler) (body : Json) (cidv : Json)
    (htr : jsTruthy cidv = true)
    (hfind : st.connections.find? (fun conn => jsStrictEqStr conn.id cidv) = none) :
    (getSSEMessages (some cidv) params st
        = (st, notFoundResponse cidv st.connections.length))
  ∧ (handleMessage handler body (some cidv) params st
        = (st, notFoundResponse cidv st.connections.length))
  ∧ (notFoundResponse cidv st.connections.length).status = some 404 :=
  ⟨getSSEMessages_notfound st params cidv htr hfind,
   handleMessage_notfound handler body cidv params st htr hfind,
   rfl⟩

/-- C7 witness: polling and delivering with the unknown id 9 against a
registry holding one session answer 404. -/
theorem unknown_session_404_witness :
    (getSSEMessages (some (Json.str "9")) { method := "GET", path := "/poll" }
        { connections := [{ id := "1", messages := [], lastEventId := 0 }],
          messageQueue := [], isConnected := true }
      = ({ connections := [{ id := "1", messages := [], lastEventId := 0 }],
           messageQueue := [], isConnected := true },
         notFoundResponse (Json.str "9") 1))
  ∧ (notFoundResponse (Json.str "9") 1).status = some 404 := by
  have h := unknown_session_404
    { connections := [{ id := "1", messages := [], lastEventId := 0 }],
      messageQueue := [], isConnected := true }
    { method := "GET", path := "/poll" }
    (fun s m => (s, Except.ok ())) Json.null (Json.str "9")
    (by decide) (by decide)
  exact ⟨h.1, h.2.2⟩

/-- C8: when the protocol handler throws on a delivered non-nullish
message body, the error is caught and surfaced as a 500 response carrying
the error message and the session id; the router returns a response
instead of propagating the exception, and the final registry state is
exactly the state the handler left — the router adds no mutation of its
own, so a handler that throws without mutating leaves the registry
untouched.  A nullish body never reaches the handler: the property read
of its type field throws first, also caught and answered as a 500 with
the TypeError message and the state unchanged. -/
theorem handler_failure_500 (st st2 : ServerState) (params : FleekFunctionParams)
    (handler : Handler) (body : Json) (cidv : Json) (c : SSEConnection)
    (emsg : String)
    (htr : jsTruthy cidv = true)
    (hfind : st.connections.find? (fun conn => jsStrictEqStr conn.id cidv) = some c)
    (hnn : jsIsNullish body = false)
    (hthrow : ∀ mc, handler st mc = (st2, Except.error emsg)) :
    (handleMessage handler body (some cidv) params st
      = (st2, { status := some 500, headers := none,
                body := Json.stringify (Json.obj
                  [("error", Json.str emsg), ("connectionId", cidv)]) }))
  ∧ (handleMessage handler Json.null (some cidv) params st
      = (st, { status := some 500, headers := none,
               body := Json.stringify (Json.obj
                 [("error", Json.str nullBodyTypeError), ("connectionId", cidv)]) })) := by
  constructor
  · rw [handleMessage_found handler body cidv params st c htr hfind hnn]
    simp only [hthrow]
    rfl
  · exact handleMessage_nullBody handler cidv params st c htr hfind

/-- C8 witness: a handler that always throws against a one-session
registry: the delivery of an empty-object body answers 500 with the
handler message, the delivery of a null body answers 500 with the
TypeError message, and the registry is unchanged both times. -/
theorem handler_failure_500_witness :
    (handleMessage (fun _ _ => ({ connections := [{ id := "1", messages := [], lastEventId := 0 }], messageQueue := [], isConnected := true }, Except.error "boom"))
        (Json.obj []) (some (Json.str "1")) { method := "POST", path := "/messages" }
        { connections := [{ id := "1", messages := [], lastEventId := 0 }],
          messageQueue := [], isConnected := true }
      = ({ connections := [{ id := "1", messages := [], lastEventId := 0 }],
           messageQueue := [], isConnected := true },
         { status := some 500, headers := none,
           body := Json.stringify (Json.obj
             [("error", Json.str "boom"), ("connectionId", Json.str "1")]) }))
  ∧ (handleMessage (fun _ _ => ({ connections := [{ id := "1", messages := [], lastEventId := 0 }], messageQueue := [], isConnected := true }, Except.error "boom"))
        Json.null (some (Json.str "1")) { method := "POST", path := "/messages" }
        { connections := [{ id := "1", messages := [], lastEventId := 0 }],
          messageQueue := [], isConnected := true }
      = ({ connections := [{ id := "1", messages := [], lastEventId := 0 }],
           messageQueue := [], isConnected := true },
         { status := some 500, headers := none,
           body := Json.stringify (Json.obj
             [("error", Json.str nullBodyTypeError), ("connectionId", Json.str "1")]) })) :=
  handler_failure_500
    { connections := [{ id := "1", messages := [], lastEventId := 0 }],
      messageQueue := [], isConnected := true }
    { connections := [{ id := "1", messages := [], lastEventId := 0 }],
      messageQueue := [], isConnected := true }
    { method := "POST", path := "/messages" }
    (fun _ _ => ({ connections := [{ id := "1", messages := [], lastEventId := 0 }], messageQueue := [], isConnected := true }, Except.error "boom"))
    (Json.obj []) (Json.str "1")
    { id := "1", messages := [], lastEventId := 0 } "boom"
    (by decide) (by decide) rfl (fun mc => rfl)

/-- C2: a poll of a found session whose buffer holds m1..mn and whose
cursor is k emits one frame per payload in buffer order with ids
k+1..k+n, leaves the session cursor at k+n, and over any run of
open/send/poll operations the ids emitted for one session form the
contiguous range 1..cursor — strictly increasing, gap-free, never reset. -/
theorem poll_event_id_sequencing (st : ServerState) (params : FleekFunctionParams)
    (cid : String) (c : SSEConnection)
    (hcid : cid ≠ "")
    (hfind : st.connections.find? (fun conn => jsStrictEqStr conn.id (Json.str cid))
        = some c)
    (hne : c.messages ≠ []) :
    ((getSSEMessages (some (Json.str cid)) params st).2.body
        = framesFrom c.lastEventId c.messages)
  ∧ ((getSSEMessages (some (Json.str cid)) params st).1.connections.find?
        (fun conn => jsStrictEqStr conn.id (Json.str cid))
      = some { c with messages := [], lastEventId := c.lastEventId + c.messages.length })
  ∧ (∀ (ops : List Op) (sid : String) (conn : SSEConnection),
      (runOps ops).1.connections.find? (fun x => jsStrictEqStr x.id (Json.str sid))
          = some conn →
      emittedFor sid (runOps ops).2 = List.range' 1 conn.lastEventId) := by
  have htr : jsTruthy (Json.str cid) = true := by simp [jsTruthy, hcid]
  have hcideq : c.id = cid := by
    simpa [jsStrictEqStr] using List.find?_some hfind
  refine ⟨?_, ?_, ?_⟩
  · rw [getSSEMessages_found st params _ c htr hfind]
    simp only [if_neg hne]
  · rw [getSSEMessages_found st params _ c htr hfind]
    exact find?_updateFirst_self _ _ st.connections c hfind
      (by simp [jsStrictEqStr, hcideq])
  · intro ops sid conn hf
    have h := (runOps_inv ops).2 sid
    rw [hf] at h
    exact h

/-- C2 witness: a session with cursor 5 and buffer a, b drains to frames
with ids 6 and 7. -/
theorem poll_event_id_sequencing_witness :
    ((getSSEMessages (some (Json.str "9")) { method := "GET", path := "/poll" }
        { connections := [{ id := "9", messages := ["a", "b"], lastEventId := 5 }],
          messageQueue := [], isConnected := true }).2.body
      = framesFrom 5 ["a", "b"])
  ∧ framesFrom 5 ["a", "b"]
      = "id: 6\nevent: message\ndata: a\n\nid: 7\nevent: message\ndata: b\n\n" := by
  constructor
  · exact (poll_event_id_sequencing
      { connections := [{ id := "9", messages := ["a", "b"], lastEventId := 5 }],
        messageQueue := [], isConnected := true }
      { method := "GET", path := "/poll" } "9"
      { id := "9", messages := ["a", "b"], lastEventId := 5 }
      (by decide) (by decide) (by decide)).1
  · decide

/-- C3: two consecutive polls of the same session with no intervening
send: the first response carries exactly the frames of the buffered
payloads, the second carries the ping frame — the drain is destructive,
exactly-once, and delivered entries are never re-offered. -/
theorem drain_exactly_once (st : ServerState) (p1 p2 : FleekFunctionParams)
    (cid : String) (c : SSEConnection)
    (hcid : cid ≠ "")
    (hfind : st.connections.find? (fun conn => jsStrictEqStr conn.id (Json.str cid))
        = some c)
    (hne : c.messages ≠ []) :
    ((getSSEMessages (some (Json.str cid)) p1 st).2.body
        = framesFrom c.lastEventId c.messages)
  ∧ ((getSSEMessages (some (Json.str cid)) p2
        ((getSSEMessages (some (Json.str cid)) p1 st).1)).2.body = pingFrame) := by
  have htr : jsTruthy (Json.str cid) = true := by simp [jsTruthy, hcid]
  have hcideq : c.id = cid := by
    simpa [jsStrictEqStr] using List.find?_some hfind
  have h1 := getSSEMessages_found st p1 _ c htr hfind
  constructor
  · rw [h1]
    simp only [if_neg hne]
  · have hfind2 : (getSSEMessages (some (Json.str cid)) p1 st).1.connections.find?
        (fun conn => jsStrictEqStr conn.id (Json.str cid))
        = some { c with messages := [], lastEventId := c.lastEventId + c.messages.length } := by
      rw [h1]
      exact find?_updateFirst_self _ _ st.connections c hfind
        (by simp [jsStrictEqStr, hcideq])
    rw [getSSEMessages_found _ p2 _ _ htr hfind2]
    simp

/-- C3 witness: a one-payload session answers the frame once and a ping
on the next poll. -/
theorem drain_exactly_once_witness :
    ((getSSEMessages (some (Json.str "3")) { method := "GET", path := "/poll" }
        { connections := [{ id := "3", messages := ["x"], lastEventId := 0 }],
          messageQueue := [], isConnected := true }).2.body = framesFrom 0 ["x"])
  ∧ ((getSSEMessages (some (Json.str "3")) { method := "GET", path := "/poll" }
        ((getSSEMessages (some (Json.str "3")) { method := "GET", path := "/poll" }
          { connections := [{ id := "3", messages := ["x"], lastEventId := 0 }],
            messageQueue := [], isConnected := true }).1)).2.body = pingFrame) :=
  drain_exactly_once
    { connections := [{ id := "3", messages := ["x"], lastEventId := 0 }],
      messageQueue := [], isConnected := true }
    { method := "GET", path := "/poll" } { method := "GET", path := "/poll" }
    "3" { id := "3", messages := ["x"], lastEventId := 0 }
    (by decide) (by decide) (by decide)

/-- C6 counterexample: a request carrying the query-map id A and the body
id B, whose raw path also carries a connectionId parameter C, extracts C,
not A — the raw-path source precedes the query map for every request, so
the claimed universal query-over-body outcome fails. -/
theorem extraction_precedence_counterexample :
    (getConnectionId
        { method := "GET", path := "/poll?connectionId=C",
          query := some [("connectionId", "A")],
          body := some (Json.obj [("connectionId", Json.str "B")]) }
      = some (Json.str "C"))
  ∧ some (Json.str "C") ≠ some (Json.str "A") := by
  constructor
  · rfl
  · intro h
    have h2 : Json.str "C" = Json.str "A" := Option.some.inj h
    have h3 : ("C" : String) = "A" := Json.str.inj h2
    exact absurd h3 (by decide)

/-- C6 (amended): extraction tries the raw-path regex, the query map, the
body field, then the URL search parameter, in that order, each accepted
only when truthy; a query-map id A beats a body id B whenever the raw
path carries no connectionId= text, and a body id B alone is returned
when neither path nor query map yield one. -/
theorem connection_id_extraction (params : FleekFunctionParams)
    (v A B : String) (q : List (String × String)) (fs : List (String × Json)) :
    (strContainsSub params.path "connectionId=" = true →
      findConnIdMatch params.path.data = some v →
      getConnectionId params = some (Json.str v))
  ∧ (strContainsSub params.path "connectionId=" = false →
      params.query = some q → queryLookup q "connectionId" = some A → A ≠ "" →
      getConnectionId params = some (Json.str A))
  ∧ (strContainsSub params.path "connectionId=" = false →
      (∀ q0, params.query = some q0 → queryLookup q0 "connectionId" = none) →
      params.body = some (Json.obj fs) →
      jsGetField (Json.obj fs) "connectionId" = Json.str B → B ≠ "" →
      getConnectionId params = some (Json.str B)) := by
  refine ⟨?_, ?_, ?_⟩
  · intro hsub hmatch
    rw [getConnectionId]
    simp [hsub, hmatch]
  · intro hsub hq hlook hA
    rw [getConnectionId]
    simp [hsub, hq, hlook, hA]
  · intro hsub hq hb hfield hB
    rw [getConnectionId]
    cases hqv : params.query with
    | none => simp [hsub, hqv, hb, hfield, jsTruthy, hB]
    | some q0 => simp [hsub, hqv, hq q0 hqv, hb, hfield, jsTruthy, hB]

/-- C6 witness: with a path free of connectionId text, the query-map id A
wins over the body id B, and a body id B alone is extracted. -/
theorem connection_id_extraction_witness :
    (getConnectionId
        { method := "POST", path := "/messages",
          query := some [("connectionId", "A")],
          body := some (Json.obj [("connectionId", Json.str "B")]) }
      = some (Json.str "A"))
  ∧ (getConnectionId
        { method := "POST", path := "/messages",
          query := none,
          body := some (Json.obj [("connectionId", Json.str "B")]) }
      = some (Json.str "B")) := by
  constructor
  · exact (connection_id_extraction
      { method := "POST", path := "/messages",
        query := some [("connectionId", "A")],
        body := some (Json.obj [("connectionId", Json.str "B")]) }
      "" "A" "B" [("connectionId", "A")] [("connectionId", Json.str "B")]).2.1
      (by decide) rfl (by decide) (by decide)
  · exact (connection_id_extraction
      { method := "POST", path := "/messages",
        query := none,
        body := some (Json.obj [("connectionId", Json.str "B")]) }
      "" "A" "B" [] [("connectionId", Json.str "B")]).2.2
      (by decide) (fun q0 hq0 => Option.noConfusion hq0) rfl rfl (by decide)

/-- C9 counterexample: a body whose message field holds the empty string
has a message field, yet the raw body — not that field value — is what
reaches the protocol handler, because the source tests JS truthiness of
the field, not its presence. -/
theorem message_unwrap_presence_counterexample :
    ((handleMessage
        (fun s mc => ({ s with messageQueue := s.messageQueue ++ [mc] }, Except.ok ()))
        (Json.obj [("message", Json.str "")])
        (some (Json.str "1")) { method := "POST", path := "/messages" }
        { connections := [{ id := "1", messages := [], lastEventId := 0 }],
          messageQueue := [], isConnected := true }).1.messageQueue
      = [Json.obj [("message", Json.str "")]])
  ∧ Json.obj [("message", Json.str "")] ≠ Json.str "" := by
  constructor
  · rfl
  · intro h
    exact Json.noConfusion h

/-- C9 (amended): delivery of a non-nullish body to a known session
normalizes by JS truthiness: a body with truthy type and name fields is
forwarded as-is; otherwise a truthy message field is unwrapped and
forwarded; otherwise the raw body is forwarded — and the response to a
successful delivery is the 200 acknowledgment carrying status received
and the session id.  A nullish body is never forwarded: the property read
of its type field throws and the delivery answers 500 with the TypeError
message, the handler not invoked and the state unchanged. -/
theorem message_normalization (st : ServerState) (params : FleekFunctionParams)
    (handler : Handler) (body cidv : Json) (c : SSEConnection)
    (htr : jsTruthy cidv = true)
    (hfind : st.connections.find? (fun conn => jsStrictEqStr conn.id cidv) = some c)
    (hnn : jsIsNullish body = false) :
    ((jsTruthy (jsGetField body "type") && jsTruthy (jsGetField body "name")) = true →
      handleMessage handler body (some cidv) params st
        = ((handler st body).1, deliveryResponse cidv (handler st body).2))
  ∧ ((jsTruthy (jsGetField body "type") && jsTruthy (jsGetField body "name")) = false →
      jsTruthy (jsGetField body "message") = true →
      handleMessage handler body (some cidv) params st
        = ((handler st (jsGetField body "message")).1,
           deliveryResponse cidv (handler st (jsGetField body "message")).2))
  ∧ ((jsTruthy (jsGetField body "type") && jsTruthy (jsGetField body "name")) = false →
      jsTruthy (jsGetField body "message") = false →
      handleMessage handler body (some cidv) params st
        = ((handler st body).1, deliveryResponse cidv (handler st body).2))
  ∧ (handleMessage handler Json.null (some cidv) params st
      = (st, { status := some 500, headers := none,
               body := Json.stringify (Json.obj
                 [("error", Json.str nullBodyTypeError), ("connectionId", cidv)]) }))
  ∧ (deliveryResponse cidv (Except.ok ())
      = { status := some 200, headers := none,
          body := Json.stringify (Json.obj
            [("status", Json.str "received"), ("connectionId", cidv)]) }) := by
  refine ⟨?_, ?_, ?_, handleMessage_nullBody handler cidv params st c htr hfind, rfl⟩
  · intro h1
    rw [handleMessage_found handler body cidv params st c htr hfind hnn]
    simp only [h1, if_true]
  · intro h1 h2
    rw [handleMessage_found handler body cidv params st c htr hfind hnn]
    simp only [h1, h2, Bool.false_eq_true, if_false, if_true]
  · intro h1 h2
    rw [handleMessage_found handler body cidv params st c htr hfind hnn]
    simp only [h1, h2, Bool.false_eq_true, if_false]

/-- C9 witness: a structured body with truthy type and name fields passes
through unchanged and the delivery acknowledges with 200. -/
theorem message_normalization_witness :
    handleMessage
        (fun s mc => ({ s with messageQueue := s.messageQueue ++ [mc] }, Except.ok ()))
        (Json.obj [("type", Json.str "tool_call"), ("name", Json.str "get-alerts")])
        (some (Json.str "1")) { method := "POST", path := "/messages" }
        { connections := [{ id := "1", messages := [], lastEventId := 0 }],
          messageQueue := [], isConnected := true }
      = ({ connections := [{ id := "1", messages := [], lastEventId := 0 }],
           messageQueue := [Json.obj [("type", Json.str "tool_call"),
                                      ("name", Json.str "get-alerts")]],
           isConnected := true },
         deliveryResponse (Json.str "1") (Except.ok ())) := by
  have h := (message_normalization
    { connections := [{ id := "1", messages := [], lastEventId := 0 }],
      messageQueue := [], isConnected := true }
    { method := "POST", path := "/messages" }
    (fun s mc => ({ s with messageQueue := s.messageQueue ++ [mc] }, Except.ok ()))
    (Json.obj [("type", Json.str "tool_call"), ("name", Json.str "get-alerts")])
    (Json.str "1") { id := "1", messages := [], lastEventId := 0 }
    (by decide) (by decide) rfl).1 rfl
  rw [h]
  rfl

/-- C10: a poll for a live session touches only that session: the id list
of the registry, its length, the broadcast queue and the connected flag
are unchanged, and every entry holding a different id keeps its buffer
and cursor — polling neither creates nor removes sessions. -/
theorem poll_frame_effect (st : ServerState) (params : FleekFunctionParams)
    (cidv : Json) (c : SSEConnection)
    (htr : jsTruthy cidv = true)
    (hfind : st.connections.find? (fun conn => jsStrictEqStr conn.id cidv) = some c) :
    ((getSSEMessages (some cidv) params st).1.connections.map (fun conn => conn.id)
        = st.connections.map (fun conn => conn.id))
  ∧ ((getSSEMessages (some cidv) params st).1.connections.length
        = st.connections.length)
  ∧ ((getSSEMessages (some cidv) params st).1.messageQueue = st.messageQueue)
  ∧ ((getSSEMessages (some cidv) params st).1.isConnected = st.isConnected)
  ∧ (∀ (i : Nat) (c0 : SSEConnection),
      st.connections.get? i = some c0 → jsStrictEqStr c0.id cidv = false →
      (getSSEMessages (some cidv) params st).1.connections.get? i = some c0) := by
  rw [getSSEMessages_found st params cidv c htr hfind]
  refine ⟨?_, ?_, rfl, rfl, ?_⟩
  · exact updateFirst_map (fun conn => jsStrictEqStr conn.id cidv)
      (fun conn => { conn with messages := [], lastEventId := conn.lastEventId + conn.messages.length })
      (fun x => x.id) (fun x _ => rfl) st.connections
  · exact updateFirst_length (fun conn => jsStrictEqStr conn.id cidv)
      (fun conn => { conn with messages := [], lastEventId := conn.lastEventId + conn.messages.length })
      st.connections
  · intro i c0 hget hp
    exact updateFirst_get?_of_not (fun conn => jsStrictEqStr conn.id cidv)
      (fun conn => { conn with messages := [], lastEventId := conn.lastEventId + conn.messages.length })
      st.connections i c0 hget hp

/-- C10 witness: polling session 1 of a two-session registry leaves
session 2 and the registry shape untouched. -/
theorem poll_frame_effect_witness :
    ((getSSEMessages (some (Json.str "1")) { method := "GET", path := "/poll" }
        { connections := [{ id := "1", messages := ["m"], lastEventId := 0 },
                          { id := "2", messages := ["n"], lastEventId := 4 }],
          messageQueue := [], isConnected := true }).1.connections.map
        (fun conn => conn.id) = ["1", "2"])
  ∧ ((getSSEMessages (some (Json.str "1")) { method := "GET", path := "/poll" }
        { connections := [{ id := "1", messages := ["m"], lastEventId := 0 },
                          { id := "2", messages := ["n"], lastEventId := 4 }],
          messageQueue := [], isConnected := true }).1.connections.get? 1
      = some { id := "2", messages := ["n"], lastEventId := 4 }) := by
  have h := poll_frame_effect
    { connections := [{ id := "1", messages := ["m"], lastEventId := 0 },
                      { id := "2", messages := ["n"], lastEventId := 4 }],
      messageQueue := [], isConnected := true }
    { method := "GET", path := "/poll" } (Json.str "1")
    { id := "1", messages := ["m"], lastEventId := 0 }
    (by decide) (by decide)
  constructor
  · rw [h.1]
    rfl
  · exact h.2.2.2.2 1 { id := "2", messages := ["n"], lastEventId := 4 } rfl (by decide)
